import Mathlib

/-!
Verification development for the x402-on-NEAR payment demo
(repository r-near/x402-near-demo).

Shallow embedding of the protocol core:
  * the facilitator service (src/facilitator.ts): schema validation of
    the incoming payment payload and payment details, the verifyPayment
    algorithm (field checks, delegate decoding, the ft_transfer scan,
    exact amount comparison) and the settlePayment ledger submission;
  * the seller service (src/seller.ts): buildAccepts, the 402 challenge
    body, and the /weather request handler that orchestrates verify and
    settle against the facilitator.

Conventions of the embedding:
  * JavaScript BigInt(string) is modelled by parseBigInt (decimal
    literals with optional sign, surrounding whitespace trimmed, the
    empty string converting to 0, anything else throwing - modelled as
    none).
  * JSON argument objects of ft_transfer calls are modelled by their
    three fields read by the code (receiver_id, receiverId, amount), each
    an optional string; JavaScript falsy coalescing (x || y) on those
    fields is modelled by jsOrStr / jsDefault, so an empty string falls
    through exactly as in the source.
  * a base64 delegate string is modelled by its decoding outcome
    (DelegateBlob): decodeSignedDelegateAction either throws
    (DelegateBlob.undecodable) or returns a structured value
    (DelegateBlob.decoded), being a pure function of the string.
  * thrown Error values are modelled by the FacErr inductive;
    errorMessage maps each repository-thrown error to its literal
    message string, and library-thrown errors (borsh decode, zod, JSON
    or BigInt syntax errors) to representative stand-in strings.
-/

deriving instance DecidableEq for Except

/-- JavaScript StrWhiteSpaceChar (the characters StringToBigInt strips
from both ends), restricted to the ASCII ones. -/
def jsSpace (c : Char) : Bool :=
  c = ' ' || c = '\t' || c = '\n' || c = '\r'

/-- A decimal digit character. -/
def decDigit (c : Char) : Bool :=
  48 ≤ c.toNat && c.toNat ≤ 57

/-- The natural number denoted by a list of decimal digit characters. -/
def digitsToNat (ds : List Char) : Nat :=
  ds.foldl (fun n c => n * 10 + (c.toNat - 48)) 0

/-- Model of JavaScript StringToBigInt restricted to decimal literals:
whitespace is trimmed from both ends, the empty string converts to 0,
an optional sign precedes decimal digits, and any other input throws
(modelled as none). -/
def parseBigInt (s : String) : Option Int :=
  let t := ((s.data.dropWhile jsSpace).reverse.dropWhile jsSpace).reverse
  match t with
  | [] => some 0
  | '-' :: ds =>
      if ds ≠ [] ∧ ds.all decDigit then some (-(digitsToNat ds : Nat)) else none
  | '+' :: ds =>
      if ds ≠ [] ∧ ds.all decDigit then some ((digitsToNat ds : Nat)) else none
  | ds =>
      if ds.all decDigit then some ((digitsToNat ds : Nat)) else none

/-- JavaScript `a || b` on two possibly-absent strings: an absent or
empty (falsy) left operand falls through to the right operand. -/
def jsOrStr (a b : Option String) : Option String :=
  match a with
  | some s => if s ≠ "" then some s else b
  | none => b

/-- JavaScript `a || d` where `d` is a present default string. -/
def jsDefault (a : Option String) (d : String) : String :=
  match a with
  | some s => if s ≠ "" then s else d
  | none => d

/-- The three fields of a parsed ft_transfer args JSON object that
verifyPayment reads; each is absent or a string. -/
structure FtArgs where
  receiver_id : Option String
  receiverId : Option String
  amount : Option String
deriving DecidableEq

/-- The raw args byte array of a function call, modelled by the outcome
of decoding it as UTF-8 and JSON.parse-ing it: either that throws
(malformed) or yields an args object. -/
inductive ArgsBlob where
  | malformed
  | json (a : FtArgs)
deriving DecidableEq

/-- A functionCall sub-action of a delegate action. -/
structure FunctionCallAction where
  methodName : String
  args : ArgsBlob
deriving DecidableEq

/-- A sub-action of a delegate action: either a functionCall (with a
truthy functionCall property) or any other action kind, which the scan
skips. -/
inductive SubAction where
  | functionCall (fc : FunctionCallAction)
  | other
deriving DecidableEq

/-- The inner delegate action: sender, target contract and sub-actions. -/
structure DelegateAction where
  senderId : String
  receiverId : String
  actions : List SubAction
deriving DecidableEq

/-- The signed envelope around a delegate action. -/
structure SignedDelegate where
  delegateAction : DelegateAction
deriving DecidableEq

/-- The value returned by near-kit decodeSignedDelegateAction. -/
structure SignedDelegateAction where
  signedDelegate : SignedDelegate
deriving DecidableEq

/-- A base64 delegate string, modelled by its decoding outcome:
decodeSignedDelegateAction throws on it or returns a value. -/
inductive DelegateBlob where
  | undecodable
  | decoded (d : SignedDelegateAction)
deriving DecidableEq

/-- The PaymentPayload zod schema, after successful parsing: scheme is
the literal near-delegate-exact, the other required fields are strings,
invoiceId and maxAmountRequired are optional. -/
structure PaymentPayload where
  scheme : String
  network : String
  asset : String
  payTo : String
  delegateB64 : DelegateBlob
  invoiceId : Option String
  maxAmountRequired : Option String
deriving DecidableEq

/-- The PaymentDetails zod schema, after successful parsing. -/
structure PaymentDetails where
  scheme : String
  network : String
  asset : String
  payTo : String
  amountExactAtomic : String
deriving DecidableEq

/-- The errors the facilitator request handlers can answer with: the
two zod schema rejections, the seven Error values thrown inside
verifyPayment (including the library-thrown decode, JSON and BigInt
failures), in source order. -/
inductive FacErr where
  | zodPayloadError
  | zodDetailsError
  | assetMismatch
  | recipientMismatch
  | networkMismatch
  | decodeFail
  | wrongTarget
  | bigIntFail
  | argsJsonFail
  | noTransfer
  | amountMismatch
deriving DecidableEq

/-- The message string of each error: literal for the Error values the
repository throws itself, representative stand-ins for library-generated
messages (zod, borsh decode, JSON.parse, BigInt conversion). -/
def errorMessage : FacErr → String
  | .zodPayloadError => "zod: invalid paymentPayload"
  | .zodDetailsError => "zod: invalid paymentDetails"
  | .assetMismatch => "Asset mismatch"
  | .recipientMismatch => "Recipient mismatch"
  | .networkMismatch => "Network mismatch"
  | .decodeFail => "Failed to decode SignedDelegateAction"
  | .wrongTarget => "Delegate must target token contract"
  | .bigIntFail => "Cannot convert string to a BigInt"
  | .argsJsonFail => "Unexpected token in JSON"
  | .noTransfer => "No transfer to seller found"
  | .amountMismatch => "Amount mismatch"

/-- True on the two recognized transfer method names. -/
def isTransferMethod (m : String) : Bool :=
  m == "ft_transfer" || m == "ft_transfer_call"

/-- The for-loop of verifyPayment over the delegate sub-actions,
threading the mutable foundAmount variable: a functionCall whose method
is a transfer method has its args decoded (throwing on bad JSON), and
when its coalesced recipient field equals payTo, foundAmount is
overwritten with BigInt of its amount (defaulted to "0" when absent or
empty, throwing on a non-literal). -/
def scanActions (payTo : String) : List SubAction → Option Int → Except FacErr (Option Int)
  | [], found => .ok found
  | .other :: rest, found => scanActions payTo rest found
  | .functionCall fc :: rest, found =>
    if isTransferMethod fc.methodName then
      match fc.args with
      | .malformed => .error .argsJsonFail
      | .json a =>
        if jsOrStr a.receiver_id a.receiverId = some payTo then
          match parseBigInt (jsDefault a.amount "0") with
          | none => .error .bigIntFail
          | some amt => scanActions payTo rest (some amt)
        else scanActions payTo rest found
    else scanActions payTo rest found

/-- The amount a single sub-action contributes to the scan: some amt
exactly when it is a transfer-method functionCall with well-formed args
whose coalesced recipient equals payTo and whose (defaulted) amount
converts to a BigInt. -/
def matchAmount (payTo : String) : SubAction → Option Int
  | .functionCall fc =>
    if isTransferMethod fc.methodName then
      match fc.args with
      | .malformed => none
      | .json a =>
        if jsOrStr a.receiver_id a.receiverId = some payTo then
          parseBigInt (jsDefault a.amount "0")
        else none
    else none
  | .other => none

/-- verifyPayment of src/facilitator.ts: field checks in source order,
delegate decoding, target-contract check, BigInt conversion of the
required amount, the sub-action scan, and the exact amount comparison. -/
def verifyPayment (payload : PaymentPayload) (required : PaymentDetails) :
    Except FacErr SignedDelegateAction :=
  if payload.asset ≠ required.asset then .error .assetMismatch
  else if payload.payTo ≠ required.payTo then .error .recipientMismatch
  else if payload.network ≠ required.network then .error .networkMismatch
  else
    match payload.delegateB64 with
    | .undecodable => .error .decodeFail
    | .decoded delegate =>
      if delegate.signedDelegate.delegateAction.receiverId ≠ required.asset then
        .error .wrongTarget
      else
        match parseBigInt required.amountExactAtomic with
        | none => .error .bigIntFail
        | some requiredAmount =>
          match scanActions required.payTo
              delegate.signedDelegate.delegateAction.actions none with
          | .error e => .error e
          | .ok none => .error .noTransfer
          | .ok (some foundAmount) =>
            if foundAmount ≠ requiredAmount then .error .amountMismatch
            else .ok delegate

/-- The paymentPayload member of a /verify request body, before zod
validation: each schema field is present (with a value of the right
JSON type) or not; a missing field and a field of the wrong JSON type
are both modelled as absent, since z.string() rejects both the same
way. The delegateB64 string is modelled by its decoding outcome. -/
structure RawPayload where
  scheme : Option String
  network : Option String
  asset : Option String
  payTo : Option String
  delegateB64 : Option DelegateBlob
  invoiceId : Option String
  maxAmountRequired : Option String
deriving DecidableEq

/-- The paymentDetails member of a /verify request body, before zod
validation. -/
structure RawDetails where
  scheme : Option String
  network : Option String
  asset : Option String
  payTo : Option String
  amountExactAtomic : Option String
deriving DecidableEq

/-- PaymentPayload.parse: every required field present, and scheme equal
to the literal near-delegate-exact. -/
def parsePaymentPayload (r : RawPayload) : Option PaymentPayload :=
  match r.scheme, r.network, r.asset, r.payTo, r.delegateB64 with
  | some s, some n, some a, some p, some b =>
    if s = "near-delegate-exact" then
      some ⟨s, n, a, p, b, r.invoiceId, r.maxAmountRequired⟩
    else none
  | _, _, _, _, _ => none

/-- PaymentDetails.parse: every field present, and scheme equal to the
literal near-delegate-exact. -/
def parsePaymentDetails (r : RawDetails) : Option PaymentDetails :=
  match r.scheme, r.network, r.asset, r.payTo, r.amountExactAtomic with
  | some s, some n, some a, some p, some amt =>
    if s = "near-delegate-exact" then some ⟨s, n, a, p, amt⟩ else none
  | _, _, _, _, _ => none

/-- The JSON body and status the /verify handler answers with: either
200 with valid true and the sender id, or 400 with valid false and the
caught error. -/
structure VerifyResponse where
  status : Nat
  valid : Bool
  sender : Option String
  error : Option FacErr
deriving DecidableEq

/-- The /verify request handler: zod-parse both members of the body,
run verifyPayment, answer 200 with the sender on success; any throw is
caught and answered as 400 with valid false and the error message. -/
def postVerify (rawP : RawPayload) (rawD : RawDetails) : VerifyResponse :=
  match parsePaymentPayload rawP with
  | none => ⟨400, false, none, some .zodPayloadError⟩
  | some payment =>
    match parsePaymentDetails rawD with
    | none => ⟨400, false, none, some .zodDetailsError⟩
    | some required =>
      match verifyPayment payment required with
      | .error e => ⟨400, false, none, some e⟩
      | .ok delegate =>
        ⟨200, true, some delegate.signedDelegate.delegateAction.senderId, none⟩

/-- The ledger as seen by the facilitator: the sequence of signed
delegate actions it has submitted as meta-transactions. -/
abbrev Ledger : Type := List SignedDelegateAction

/-- The fields of a successful transaction outcome that settlePayment
reads from the RPC result. -/
structure TxInfo where
  txHash : String
  blockHash : String
  status : String
deriving DecidableEq

/-- The JSON body and status the /settle handler answers with. -/
structure SettleResponse where
  status : Nat
  ok : Bool
  info : Option TxInfo
  error : Option String
deriving DecidableEq

/-- settlePayment: submit the signed delegate action to the ledger as a
meta-transaction signed by the relayer. Submission appends the delegate
to the ledger; the RPC outcome (acceptance with a transaction hash, or
a ledger-level rejection) is given by the exec oracle standing for the
NEAR network. -/
def settlePayment (exec : SignedDelegateAction → Except String TxInfo)
    (l : Ledger) (delegate : SignedDelegateAction) :
    Ledger × Except String TxInfo :=
  (l ++ [delegate], exec delegate)

/-- A request to one of the two facilitator endpoints. -/
inductive FacRequest where
  | verifyReq (rawP : RawPayload) (rawD : RawDetails)
  | settleReq (blob : DelegateBlob)
deriving DecidableEq

/-- A response from one of the two facilitator endpoints. -/
inductive FacResponse where
  | verifyResp (r : VerifyResponse)
  | settleResp (r : SettleResponse)
deriving DecidableEq

/-- One facilitator request step, threading the ledger state explicitly:
the /verify handler only runs verifyPayment (no ledger call anywhere in
its body); the /settle handler decodes the delegate (a throw is caught
and answered as 400) and then submits it via settlePayment, answering
with the settlement receipt, or 400 with the message of a ledger
rejection. -/
def facilitatorStep (exec : SignedDelegateAction → Except String TxInfo)
    (l : Ledger) : FacRequest → Ledger × FacResponse
  | .verifyReq rawP rawD => (l, .verifyResp (postVerify rawP rawD))
  | .settleReq .undecodable =>
    (l, .settleResp ⟨400, false, none, some (errorMessage .decodeFail)⟩)
  | .settleReq (.decoded delegate) =>
    match settlePayment exec l delegate with
    | (l2, .ok info) => (l2, .settleResp ⟨200, true, some info, none⟩)
    | (l2, .error e) => (l2, .settleResp ⟨400, false, none, some e⟩)

/-- The seller configuration read from the environment at startup. -/
structure SellerConfig where
  nearNetwork : String
  tokenAccountId : String
  sellerAccountId : String
  priceAtomic : String
deriving DecidableEq

/-- One entry of the accepts list of a 402 challenge. -/
structure AcceptsEntry where
  scheme : String
  network : String
  asset : String
  payTo : String
  amountExactAtomic : String
  maxTimeoutSeconds : Nat
  mimeType : String
  resource : String
  description : String
deriving DecidableEq

/-- buildAccepts of src/seller.ts: the single x402 accepts entry for a
resource. The description string interpolates a JavaScript float
rendering of PRICE_ATOMIC (Number division and toFixed); that rendering
is a pure function of the price string and is passed in as the
uninterpreted describe argument. -/
def buildAccepts (cfg : SellerConfig) (describe : String → String)
    (resource : String) : List AcceptsEntry :=
  [{ scheme := "near-delegate-exact"
     network := cfg.nearNetwork
     asset := cfg.tokenAccountId
     payTo := cfg.sellerAccountId
     amountExactAtomic := cfg.priceAtomic
     maxTimeoutSeconds := 60
     mimeType := "application/json"
     resource := resource
     description := describe cfg.priceAtomic }]

/-- The invoice of a 402 challenge: a fresh UUID and the issuance time. -/
structure Invoice where
  id : String
  createdAt : Nat
deriving DecidableEq

/-- The body of a 402 challenge response. -/
structure ChallengeBody where
  message : String
  accepts : List AcceptsEntry
  invoice : Invoice
deriving DecidableEq

/-- The 402 challenge the seller answers an unauthenticated request
with: the accepts list for the request URL and a fresh invoice. -/
def challengeBody (cfg : SellerConfig) (describe : String → String)
    (url : String) (uuid : String) (now : Nat) : ChallengeBody :=
  ⟨"Payment Required", buildAccepts cfg describe url, ⟨uuid, now⟩⟩

/-- The x-payment header value, modelled by the outcome of base64
decoding and JSON.parse-ing it: a throw (malformed) or an arbitrary
payment JSON object, forwarded verbatim to the facilitator. -/
inductive HeaderBlob where
  | malformed
  | payment (p : RawPayload)
deriving DecidableEq

/-- The JSON body of the facilitator's answer to /verify, as the seller
reads it. -/
structure VerificationJson where
  valid : Bool
  error : Option String
deriving DecidableEq

/-- The JSON body of the facilitator's answer to /settle, as the seller
reads it. -/
structure SettlementJson where
  ok : Bool
  txHash : Option String
  error : Option String
deriving DecidableEq

/-- The outcome of one fetch call from the seller to the facilitator:
either the fetch (or reading its JSON body) throws, or it yields a
parsed body. -/
inductive FetchResult (α : Type) where
  | fail
  | ok (a : α)
deriving DecidableEq

/-- The body of a seller /weather response. -/
inductive SellerBody where
  | challenge (c : ChallengeBody)
  | paymentInvalid (details : Option String)
  | paymentNotSettled (details : Option String)
  | paymentError (details : String)
  | weatherReport (asset : String) (amount : String) (tx : Option String)
deriving DecidableEq

/-- A seller /weather response: status, body, and the x-payment-response
receipt header (the base64 of the settlement JSON, modelled by the
settlement value it encodes). -/
structure SellerResponse where
  status : Nat
  body : SellerBody
  paymentResponseHeader : Option SettlementJson
deriving DecidableEq

/-- The /weather handler of src/seller.ts. Without an x-payment header
it answers 402 with the challenge body. Otherwise it parses the header
(a throw is caught by the surrounding try and answered 402
PAYMENT_ERROR), calls the facilitator /verify (a transport throw is
likewise caught), answers 402 PAYMENT_INVALID when the verification is
not valid, calls /settle, answers 402 PAYMENT_NOT_SETTLED when the
settlement is not ok, and on success answers 200 with the weather
report, the paid amount from the first accepts entry, and the receipt
header. The two facilitator answers are passed in as fetch outcomes. -/
def weatherHandler (cfg : SellerConfig) (describe : String → String)
    (url : String) (uuid : String) (now : Nat)
    (header : Option HeaderBlob)
    (verifyOutcome : FetchResult VerificationJson)
    (settleOutcome : FetchResult SettlementJson) : SellerResponse :=
  match header with
  | none => ⟨402, .challenge (challengeBody cfg describe url uuid now), none⟩
  | some .malformed =>
    ⟨402, .paymentError (errorMessage .argsJsonFail), none⟩
  | some (.payment _) =>
    match verifyOutcome with
    | .fail => ⟨402, .paymentError "fetch failed", none⟩
    | .ok verification =>
      if !verification.valid then
        ⟨402, .paymentInvalid verification.error, none⟩
      else
        match settleOutcome with
        | .fail => ⟨402, .paymentError "fetch failed", none⟩
        | .ok settlement =>
          if !settlement.ok then
            ⟨402, .paymentNotSettled settlement.error, none⟩
          else
            ⟨200,
             .weatherReport cfg.tokenAccountId
               (((buildAccepts cfg describe url).head?.map
                   (fun e => e.amountExactAtomic)).getD "0")
               settlement.txHash,
             some settlement⟩

/-- The last element of a cons list: the last of the tail, defaulting
to the head. -/
lemma getLast?_cons_getD {α : Type} (a : α) (l : List α) :
    (a :: l).getLast? = some (l.getLast?.getD a) := by
  induction l generalizing a with
  | nil => rfl
  | cons b t ih => simp [List.getLast?_cons_cons, ih]

/-- The amount of the last sub-action matching payTo among acts, or the
incoming foundAmount value f when none matches. -/
def scanResult (payTo : String) (acts : List SubAction) (f : Option Int) : Option Int :=
  match (acts.filterMap (matchAmount payTo)).getLast? with
  | some v => some v
  | none => f

/-- When the scan completes without throwing, the resulting foundAmount
is the amount of the last matching sub-action (earlier matches are
overwritten), or the initial value when no sub-action matches. -/
lemma scanActions_ok (payTo : String) (acts : List SubAction) :
    ∀ f r, scanActions payTo acts f = .ok r → r = scanResult payTo acts f := by
  induction acts with
  | nil =>
    intro f r h
    simp only [scanActions] at h
    cases h
    simp [scanResult]
  | cons a rest ih =>
    intro f r h
    cases a with
    | other =>
      simp only [scanActions] at h
      have h2 := ih f r h
      simpa [scanResult, matchAmount, List.filterMap_cons] using h2
    | functionCall fc =>
      simp only [scanActions] at h
      by_cases hm : isTransferMethod fc.methodName
      · rw [if_pos hm] at h
        cases hargs : fc.args with
        | malformed => rw [hargs] at h; simp only at h; cases h
        | json a0 =>
          rw [hargs] at h
          simp only at h
          by_cases hr : jsOrStr a0.receiver_id a0.receiverId = some payTo
          · rw [if_pos hr] at h
            cases hp : parseBigInt (jsDefault a0.amount "0") with
            | none => rw [hp] at h; cases h
            | some amt =>
              rw [hp] at h
              have h2 := ih (some amt) r h
              have hma : matchAmount payTo (.functionCall fc) = some amt := by
                simp [matchAmount, hm, hargs, hr, hp]
              simp only [scanResult, List.filterMap_cons, hma, getLast?_cons_getD] at h2 ⊢
              cases hfm : (rest.filterMap (matchAmount payTo)).getLast? with
              | none => simp [hfm] at h2 ⊢; exact h2
              | some v => simp [hfm] at h2 ⊢; exact h2
          · rw [if_neg hr] at h
            have h2 := ih f r h
            have hma : matchAmount payTo (.functionCall fc) = none := by
              simp [matchAmount, hm, hargs, hr]
            simpa [scanResult, List.filterMap_cons, hma] using h2
      · rw [if_neg hm] at h
        have h2 := ih f r h
        have hma : matchAmount payTo (.functionCall fc) = none := by
          simp [matchAmount, hm]
        simpa [scanResult, List.filterMap_cons, hma] using h2

/-- Evaluation of verifyPayment once all checks before the amount
comparison pass: the result is decided by comparing the scanned amount
with the converted required amount. -/
lemma verifyPayment_amount (p : PaymentPayload) (d : PaymentDetails)
    (del : SignedDelegateAction) (A v : Int)
    (h1 : p.asset = d.asset) (h2 : p.payTo = d.payTo) (h3 : p.network = d.network)
    (h4 : p.delegateB64 = .decoded del)
    (h5 : del.signedDelegate.delegateAction.receiverId = d.asset)
    (h6 : parseBigInt d.amountExactAtomic = some A)
    (h7 : scanActions d.payTo del.signedDelegate.delegateAction.actions none = .ok (some v)) :
    verifyPayment p d = if v = A then .ok del else .error .amountMismatch := by
  simp only [verifyPayment, h1, h2, h3, h4, h5, h6, h7, ne_eq, not_true_eq_false,
    if_false, ite_not]

/-- Inversion: a successful verifyPayment implies all three field
checks passed, the blob decoded, the delegate targets the asset
contract, and the scanned amount equals the converted required
amount. -/
lemma verifyPayment_ok_inv (p : PaymentPayload) (d : PaymentDetails)
    (del : SignedDelegateAction) (h : verifyPayment p d = .ok del) :
    p.asset = d.asset ∧ p.payTo = d.payTo ∧ p.network = d.network ∧
    p.delegateB64 = .decoded del ∧
    del.signedDelegate.delegateAction.receiverId = d.asset ∧
    ∃ A : Int, parseBigInt d.amountExactAtomic = some A ∧
      scanActions d.payTo del.signedDelegate.delegateAction.actions none = .ok (some A) := by
  unfold verifyPayment at h
  split_ifs at h with hA hP hN
  rw [not_ne_iff] at hA hP hN
  refine ⟨hA, hP, hN, ?_⟩
  cases hb : p.delegateB64 with
  | undecodable => rw [hb] at h; simp only at h; cases h
  | decoded del2 =>
    rw [hb] at h
    simp only at h
    split_ifs at h with hT
    rw [not_ne_iff] at hT
    cases hq : parseBigInt d.amountExactAtomic with
    | none => rw [hq] at h; simp only at h; cases h
    | some A =>
      rw [hq] at h
      simp only at h
      cases hs : scanActions d.payTo del2.signedDelegate.delegateAction.actions none with
      | error e => rw [hs] at h; simp only at h; cases h
      | ok fnd =>
        rw [hs] at h
        cases fnd with
        | none => simp only at h; cases h
        | some v =>
          simp only at h
          split_ifs at h with hne
          rw [not_ne_iff] at hne
          cases h
          exact ⟨rfl, hT, A, rfl, by rw [hs, hne]⟩

/-- An ft_transfer sub-action to a recipient with an optional amount
string, used in concrete witness inputs. -/
def ftTransferTo (recipient : String) (amt : Option String) : SubAction :=
  .functionCall ⟨"ft_transfer", .json ⟨some recipient, none, amt⟩⟩

/-- A decoded signed delegate targeting the token contract tok.testnet
with the given sub-actions. -/
def delegateWith (acts : List SubAction) : SignedDelegateAction :=
  ⟨⟨⟨"buyer.testnet", "tok.testnet", acts⟩⟩⟩

/-- A payment payload echoing the witness requirements and carrying the
given sub-actions in its decoded delegate. -/
def payloadWith (acts : List SubAction) : PaymentPayload :=
  ⟨"near-delegate-exact", "testnet", "tok.testnet", "seller.testnet",
    .decoded (delegateWith acts), none, none⟩

/-- Witness payment requirements with a given exact amount. -/
def detailsAmount (amt : String) : PaymentDetails :=
  ⟨"near-delegate-exact", "testnet", "tok.testnet", "seller.testnet", amt⟩

/-- Claim C1: for every payment payload whose decoded delegate passes
the field, decode and target checks and whose sub-action scan observes a
transfer of amount v to requirements.payTo, verify succeeds iff v equals
the required amount A exactly, compared as arbitrary-precision integers;
in particular observed amounts A+1 and A-1 both yield the Amount
mismatch error, so there is no tolerance and no at-least semantics. -/
theorem claim_C1_exact_amount (p : PaymentPayload) (d : PaymentDetails)
    (del : SignedDelegateAction) (A v : Int)
    (h1 : p.asset = d.asset) (h2 : p.payTo = d.payTo) (h3 : p.network = d.network)
    (h4 : p.delegateB64 = .decoded del)
    (h5 : del.signedDelegate.delegateAction.receiverId = d.asset)
    (h6 : parseBigInt d.amountExactAtomic = some A)
    (h7 : scanActions d.payTo del.signedDelegate.delegateAction.actions none = .ok (some v)) :
    (verifyPayment p d = .ok del ↔ v = A) ∧
    (v ≠ A → verifyPayment p d = .error .amountMismatch) ∧
    (v = A + 1 ∨ v = A - 1 → verifyPayment p d = .error .amountMismatch) ∧
    errorMessage .amountMismatch = "Amount mismatch" := by
  have hv := verifyPayment_amount p d del A v h1 h2 h3 h4 h5 h6 h7
  refine ⟨⟨fun hok => ?_, fun he => by rw [hv, if_pos he]⟩,
    fun hne => by rw [hv, if_neg hne], fun hc => ?_, rfl⟩
  · by_contra hne
    rw [hv, if_neg hne] at hok
    cases hok
  · have hne : v ≠ A := by rcases hc with h | h <;> omega
    rw [hv, if_neg hne]

/-- Witness for claim C1 at concrete inputs: a transfer of exactly 1000
verifies against required amount 1000, while transfers of 1001 and 999
fail with Amount mismatch. -/
theorem claim_C1_exact_amount_witness :
    verifyPayment (payloadWith [ftTransferTo "seller.testnet" (some "1000")])
      (detailsAmount "1000") = .ok (delegateWith [ftTransferTo "seller.testnet" (some "1000")]) ∧
    verifyPayment (payloadWith [ftTransferTo "seller.testnet" (some "1001")])
      (detailsAmount "1000") = .error .amountMismatch ∧
    verifyPayment (payloadWith [ftTransferTo "seller.testnet" (some "999")])
      (detailsAmount "1000") = .error .amountMismatch := by
  refine ⟨?_, ?_, ?_⟩
  · exact (claim_C1_exact_amount _ _ _ 1000 1000 rfl rfl rfl rfl rfl (by decide)
      (by decide)).1.mpr rfl
  · exact (claim_C1_exact_amount _ _ _ 1000 1001 rfl rfl rfl rfl rfl (by decide)
      (by decide)).2.2.1 (Or.inl (by decide))
  · exact (claim_C1_exact_amount _ _ _ 1000 999 rfl rfl rfl rfl rfl (by decide)
      (by decide)).2.2.1 (Or.inr (by decide))

/-- Claim C2: verifyPayment checks payload.asset, payload.payTo and
payload.network against the requirements in that fixed order and returns
the first violated rule's error (with messages Asset mismatch, Recipient
mismatch, Network mismatch), for every payload and requirements - in
particular independently of the delegate blob, which is not decoded
before these checks (conjunct four: under any field mismatch the result
does not depend on the blob at all). -/
theorem claim_C2_field_order (p : PaymentPayload) (d : PaymentDetails) :
    (p.asset ≠ d.asset → verifyPayment p d = .error .assetMismatch) ∧
    (p.asset = d.asset → p.payTo ≠ d.payTo →
      verifyPayment p d = .error .recipientMismatch) ∧
    (p.asset = d.asset → p.payTo = d.payTo → p.network ≠ d.network →
      verifyPayment p d = .error .networkMismatch) ∧
    (∀ b : DelegateBlob,
      p.asset ≠ d.asset ∨ p.payTo ≠ d.payTo ∨ p.network ≠ d.network →
      verifyPayment { p with delegateB64 := b } d = verifyPayment p d) ∧
    errorMessage .assetMismatch = "Asset mismatch" ∧
    errorMessage .recipientMismatch = "Recipient mismatch" ∧
    errorMessage .networkMismatch = "Network mismatch" := by
  refine ⟨?_, ?_, ?_, ?_, rfl, rfl, rfl⟩
  · intro h
    simp only [verifyPayment, if_pos h]
  · intro hA hP
    simp only [verifyPayment, hA]
    rw [if_neg (fun hn => hn rfl), if_pos hP]
  · intro hA hP hN
    simp only [verifyPayment, hA, hP]
    rw [if_neg (fun hn => hn rfl), if_neg (fun hn => hn rfl), if_pos hN]
  · intro b h
    by_cases hA : p.asset = d.asset
    · by_cases hP : p.payTo = d.payTo
      · by_cases hN : p.network = d.network
        · rcases h with h | h | h <;> exact absurd (by assumption) h
        · show verifyPayment ⟨p.scheme, p.network, p.asset, p.payTo, b,
            p.invoiceId, p.maxAmountRequired⟩ d = _
          simp only [verifyPayment, hA, hP]
          rw [if_neg (fun hn => hn rfl), if_neg (fun hn => hn rfl), if_pos hN,
            if_neg (fun hn => hn rfl), if_neg (fun hn => hn rfl), if_pos hN]
      · show verifyPayment ⟨p.scheme, p.network, p.asset, p.payTo, b,
          p.invoiceId, p.maxAmountRequired⟩ d = _
        simp only [verifyPayment, hA]
        rw [if_neg (fun hn => hn rfl), if_pos hP, if_neg (fun hn => hn rfl), if_pos hP]
    · show verifyPayment ⟨p.scheme, p.network, p.asset, p.payTo, b,
        p.invoiceId, p.maxAmountRequired⟩ d = _
      simp only [verifyPayment]
      rw [if_pos hA, if_pos hA]

/-- Witness for claim C2 at concrete inputs, each with an undecodable
blob: changing exactly one of asset, payTo, network yields the
corresponding mismatch error before any decoding. -/
theorem claim_C2_field_order_witness :
    verifyPayment ⟨"near-delegate-exact", "testnet", "other.tok", "seller.testnet",
        .undecodable, none, none⟩ (detailsAmount "1000") = .error .assetMismatch ∧
    verifyPayment ⟨"near-delegate-exact", "testnet", "tok.testnet", "other.seller",
        .undecodable, none, none⟩ (detailsAmount "1000") = .error .recipientMismatch ∧
    verifyPayment ⟨"near-delegate-exact", "mainnet", "tok.testnet", "seller.testnet",
        .undecodable, none, none⟩ (detailsAmount "1000") = .error .networkMismatch := by
  refine ⟨?_, ?_, ?_⟩
  · exact (claim_C2_field_order _ _).1 (by decide)
  · exact (claim_C2_field_order _ _).2.1 (by decide) (by decide)
  · exact (claim_C2_field_order _ _).2.2.1 (by decide) (by decide) (by decide)

/-- Claim C3: the sub-action scan is exhaustive, not first-match: when
the scan completes, the observed amount it yields is the amount of the
last matching transfer sub-action in sequence order (earlier matches are
overwritten), and that amount is the one compared against
amountExactAtomic. -/
theorem claim_C3_last_match_wins (p : PaymentPayload) (d : PaymentDetails)
    (del : SignedDelegateAction) (A : Int) (v : Int) (r : Option Int)
    (h1 : p.asset = d.asset) (h2 : p.payTo = d.payTo) (h3 : p.network = d.network)
    (h4 : p.delegateB64 = .decoded del)
    (h5 : del.signedDelegate.delegateAction.receiverId = d.asset)
    (h6 : parseBigInt d.amountExactAtomic = some A)
    (hscan : scanActions d.payTo del.signedDelegate.delegateAction.actions none = .ok r)
    (hlast : (del.signedDelegate.delegateAction.actions.filterMap
        (matchAmount d.payTo)).getLast? = some v) :
    r = some v ∧
    (verifyPayment p d = .ok del ↔ v = A) ∧
    (v ≠ A → verifyPayment p d = .error .amountMismatch) := by
  have hr := scanActions_ok d.payTo del.signedDelegate.delegateAction.actions none r hscan
  rw [scanResult, hlast] at hr
  subst hr
  have hv := verifyPayment_amount p d del A v h1 h2 h3 h4 h5 h6 hscan
  refine ⟨rfl, ⟨fun hok => ?_, fun he => by rw [hv, if_pos he]⟩,
    fun hne => by rw [hv, if_neg hne]⟩
  by_contra hne
  rw [hv, if_neg hne] at hok
  cases hok

/-- Witness for claim C3: a delegate with two transfers to the seller
(amounts 5 then 8) and one to a third party verifies against required
amount 8 and fails with Amount mismatch against required amount 5 - the
last matching sub-action wins. -/
theorem claim_C3_last_match_wins_witness :
    verifyPayment
      (payloadWith [ftTransferTo "seller.testnet" (some "5"),
        ftTransferTo "third.party" (some "9"),
        ftTransferTo "seller.testnet" (some "8")])
      (detailsAmount "8")
      = .ok (delegateWith [ftTransferTo "seller.testnet" (some "5"),
          ftTransferTo "third.party" (some "9"),
          ftTransferTo "seller.testnet" (some "8")]) ∧
    verifyPayment
      (payloadWith [ftTransferTo "seller.testnet" (some "5"),
        ftTransferTo "third.party" (some "9"),
        ftTransferTo "seller.testnet" (some "8")])
      (detailsAmount "5")
      = .error .amountMismatch := by
  constructor
  · exact (claim_C3_last_match_wins _ _ _ 8 8 (some 8) rfl rfl rfl rfl rfl
      (by decide) (by decide) (by decide)).2.1.mpr rfl
  · exact (claim_C3_last_match_wins _ _ _ 5 8 (some 8) rfl rfl rfl rfl rfl
      (by decide) (by decide) (by decide)).2.2 (by decide)

/-- Inversion of PaymentPayload.parse: success pins every required raw
field, including the scheme literal. -/
lemma parsePaymentPayload_some (r : RawPayload) (p : PaymentPayload)
    (h : parsePaymentPayload r = some p) :
    r.scheme = some "near-delegate-exact" ∧ r.network = some p.network ∧
    r.asset = some p.asset ∧ r.payTo = some p.payTo ∧
    r.delegateB64 = some p.delegateB64 := by
  unfold parsePaymentPayload at h
  split at h
  · split_ifs at h with hs
    cases h
    subst hs
    refine ⟨?_, ?_, ?_, ?_, ?_⟩ <;> simp_all
  · cases h

/-- Inversion of PaymentDetails.parse: success pins every required raw
field, including the scheme literal. -/
lemma parsePaymentDetails_some (r : RawDetails) (d : PaymentDetails)
    (h : parsePaymentDetails r = some d) :
    r.scheme = some "near-delegate-exact" ∧ r.network = some d.network ∧
    r.asset = some d.asset ∧ r.payTo = some d.payTo ∧
    r.amountExactAtomic = some d.amountExactAtomic := by
  unfold parsePaymentDetails at h
  split at h
  · split_ifs at h with hs
    cases h
    subst hs
    refine ⟨?_, ?_, ?_, ?_, ?_⟩ <;> simp_all
  · cases h

/-- An undecodable delegate blob can never verify: the result is always
some error. -/
lemma verifyPayment_undecodable_err (p : PaymentPayload) (d : PaymentDetails)
    (hb : p.delegateB64 = .undecodable) :
    ∃ e, verifyPayment p d = .error e := by
  cases hv : verifyPayment p d with
  | error e => exact ⟨e, rfl⟩
  | ok del =>
    have hdec := (verifyPayment_ok_inv p d del hv).2.2.2.1
    rw [hb] at hdec
    cases hdec

/-- When the three field checks pass and the blob is undecodable,
verifyPayment fails with the decode error. -/
lemma verifyPayment_decodeFail (p : PaymentPayload) (d : PaymentDetails)
    (hb : p.delegateB64 = .undecodable)
    (h1 : p.asset = d.asset) (h2 : p.payTo = d.payTo) (h3 : p.network = d.network) :
    verifyPayment p d = .error .decodeFail := by
  simp only [verifyPayment, h1, h2, h3, hb]
  rw [if_neg (fun hn => hn rfl), if_neg (fun hn => hn rfl), if_neg (fun hn => hn rfl)]

/-- Claim C4: a request carrying a non-decodable authorizationBlob never
crashes either endpoint (the handlers are total functions): /verify
answers a structured 400 failure with valid false and an error set, and -
once the schema and field checks pass - that error is precisely the
decode failure; /settle answers 400 with ok false and the decode error
message, leaving the ledger untouched. -/
theorem claim_C4_decode_robustness (rawP : RawPayload) (rawD : RawDetails)
    (exec : SignedDelegateAction → Except String TxInfo) (l : Ledger) :
    (rawP.delegateB64 = some .undecodable →
      (postVerify rawP rawD).status = 400 ∧ (postVerify rawP rawD).valid = false ∧
      (postVerify rawP rawD).error ≠ none) ∧
    (∀ p d, parsePaymentPayload rawP = some p → parsePaymentDetails rawD = some d →
      rawP.delegateB64 = some .undecodable →
      p.asset = d.asset → p.payTo = d.payTo → p.network = d.network →
      postVerify rawP rawD = ⟨400, false, none, some .decodeFail⟩) ∧
    facilitatorStep exec l (.settleReq .undecodable)
      = (l, .settleResp ⟨400, false, none, some (errorMessage .decodeFail)⟩) := by
  refine ⟨?_, ?_, rfl⟩
  · intro hb
    unfold postVerify
    cases hp : parsePaymentPayload rawP with
    | none => exact ⟨rfl, rfl, by simp⟩
    | some p =>
      cases hd : parsePaymentDetails rawD with
      | none => exact ⟨rfl, rfl, by simp⟩
      | some d =>
        have hpb : p.delegateB64 = .undecodable := by
          have hx := (parsePaymentPayload_some rawP p hp).2.2.2.2
          rw [hb] at hx
          exact (Option.some.inj hx).symm
        obtain ⟨e, he⟩ := verifyPayment_undecodable_err p d hpb
        simp [he]
  · intro p d hp hd hb h1 h2 h3
    have hpb : p.delegateB64 = .undecodable := by
      have hx := (parsePaymentPayload_some rawP p hp).2.2.2.2
      rw [hb] at hx
      exact (Option.some.inj hx).symm
    unfold postVerify
    simp only [hp, hd, verifyPayment_decodeFail p d hpb h1 h2 h3]

/-- Witness for claim C4: a schema-valid /verify request with matching
fields and an undecodable blob answers 400 with the decode error, and a
/settle request with an undecodable blob answers 400 ok-false. -/
theorem claim_C4_decode_robustness_witness :
    postVerify
      ⟨some "near-delegate-exact", some "testnet", some "tok.testnet",
        some "seller.testnet", some .undecodable, none, none⟩
      ⟨some "near-delegate-exact", some "testnet", some "tok.testnet",
        some "seller.testnet", some "1000"⟩
      = ⟨400, false, none, some .decodeFail⟩ ∧
    facilitatorStep (fun _ => .error "offline") [] (.settleReq .undecodable)
      = ([], .settleResp ⟨400, false, none, some (errorMessage .decodeFail)⟩) := by
  constructor
  · exact (claim_C4_decode_robustness _ _ (fun _ => .error "offline") []).2.1
      ⟨"near-delegate-exact", "testnet", "tok.testnet", "seller.testnet",
        .undecodable, none, none⟩
      ⟨"near-delegate-exact", "testnet", "tok.testnet", "seller.testnet", "1000"⟩
      (by decide) (by decide) rfl rfl rfl rfl
  · exact (claim_C4_decode_robustness
      ⟨none, none, none, none, none, none, none⟩ ⟨none, none, none, none, none⟩
      (fun _ => .error "offline") []).2.2

/-- Claim C10: any /verify request whose paymentPayload.scheme is not
the exact literal near-delegate-exact, or which is missing a required
payload field, is rejected 400 with the payload schema error - before
and instead of any asset, payTo or network mismatch check, regardless of
all other field values; the same literal is required of paymentDetails,
whose violation yields the details schema error once the payload parses.
The final conjuncts record that these schema errors are distinct from
the three mismatch errors. -/
theorem claim_C10_scheme_gate (rawP : RawPayload) (rawD : RawDetails) :
    (rawP.scheme ≠ some "near-delegate-exact" →
      postVerify rawP rawD = ⟨400, false, none, some .zodPayloadError⟩) ∧
    (rawP.network = none ∨ rawP.asset = none ∨ rawP.payTo = none ∨
        rawP.delegateB64 = none →
      postVerify rawP rawD = ⟨400, false, none, some .zodPayloadError⟩) ∧
    (parsePaymentPayload rawP ≠ none → rawD.scheme ≠ some "near-delegate-exact" →
      postVerify rawP rawD = ⟨400, false, none, some .zodDetailsError⟩) ∧
    (parsePaymentPayload rawP ≠ none → rawD.amountExactAtomic = none →
      postVerify rawP rawD = ⟨400, false, none, some .zodDetailsError⟩) ∧
    (FacErr.zodPayloadError ≠ .assetMismatch ∧
     FacErr.zodPayloadError ≠ .recipientMismatch ∧
     FacErr.zodPayloadError ≠ .networkMismatch ∧
     FacErr.zodDetailsError ≠ .assetMismatch ∧
     FacErr.zodDetailsError ≠ .recipientMismatch ∧
     FacErr.zodDetailsError ≠ .networkMismatch) := by
  have hpnone : ∀ hx : parsePaymentPayload rawP = none,
      postVerify rawP rawD = ⟨400, false, none, some .zodPayloadError⟩ := by
    intro hx
    unfold postVerify
    simp only [hx]
  have hdnone : ∀ (p : PaymentPayload),
      parsePaymentPayload rawP = some p → parsePaymentDetails rawD = none →
      postVerify rawP rawD = ⟨400, false, none, some .zodDetailsError⟩ := by
    intro p hp hx
    unfold postVerify
    simp only [hp, hx]
  refine ⟨?_, ?_, ?_, ?_, by decide, by decide, by decide, by decide, by decide, by decide⟩
  · intro hs
    apply hpnone
    cases hp : parsePaymentPayload rawP with
    | none => rfl
    | some p => exact absurd (parsePaymentPayload_some rawP p hp).1 hs
  · intro hmiss
    apply hpnone
    cases hp : parsePaymentPayload rawP with
    | none => rfl
    | some p =>
      have hsome := parsePaymentPayload_some rawP p hp
      rcases hmiss with h | h | h | h <;> simp [h] at hsome
  · intro hp hs
    cases hpp : parsePaymentPayload rawP with
    | none => exact absurd hpp hp
    | some p =>
      cases hdd : parsePaymentDetails rawD with
      | none => exact hdnone p hpp hdd
      | some d => exact absurd (parsePaymentDetails_some rawD d hdd).1 hs
  · intro hp hs
    cases hpp : parsePaymentPayload rawP with
    | none => exact absurd hpp hp
    | some d2 =>
      cases hdd : parsePaymentDetails rawD with
      | none => exact hdnone d2 hpp hdd
      | some d =>
        have hsome := parsePaymentDetails_some rawD d hdd
        rw [hs] at hsome
        cases hsome.2.2.2.2

/-- Witness for claim C10: a wrong payload scheme is answered with the
payload schema error even though all other fields match, and a wrong
details scheme with the details schema error. -/
theorem claim_C10_scheme_gate_witness :
    postVerify
      ⟨some "exact", some "testnet", some "tok.testnet", some "seller.testnet",
        some .undecodable, none, none⟩
      ⟨some "near-delegate-exact", some "testnet", some "tok.testnet",
        some "seller.testnet", some "1000"⟩
      = ⟨400, false, none, some .zodPayloadError⟩ ∧
    postVerify
      ⟨some "near-delegate-exact", some "testnet", some "tok.testnet",
        some "seller.testnet", some .undecodable, none, none⟩
      ⟨some "x402", some "testnet", some "tok.testnet",
        some "seller.testnet", some "1000"⟩
      = ⟨400, false, none, some .zodDetailsError⟩ := by
  constructor
  · exact (claim_C10_scheme_gate _ _).1 (by decide)
  · exact (claim_C10_scheme_gate _ _).2.2.1 (by decide) (by decide)

/-- Claim C8: verify is pure with respect to the ledger - a /verify
request leaves the ledger component of the facilitator state unchanged
for every input, whether verification succeeds or fails; only a /settle
request with a decodable blob submits (appends) a transaction, and a
/settle request whose blob fails to decode submits nothing. -/
theorem claim_C8_verify_pure (exec : SignedDelegateAction → Except String TxInfo)
    (l : Ledger) (rawP : RawPayload) (rawD : RawDetails) (del : SignedDelegateAction) :
    (facilitatorStep exec l (.verifyReq rawP rawD)).1 = l ∧
    (facilitatorStep exec l (.settleReq (.decoded del))).1 = l ++ [del] ∧
    (facilitatorStep exec l (.settleReq .undecodable)).1 = l := by
  refine ⟨rfl, ?_, rfl⟩
  cases hx : exec del <;> simp [facilitatorStep, settlePayment, hx]

/-- Claim C7: two challenge issuances for the same resource URL under
the same configuration produce identical accepts entries - the whole 402
challenge bodies differ only in the invoice id and createdAt fields -
and the unauthenticated /weather response is exactly that 402
challenge. -/
theorem claim_C7_idempotent_challenge (cfg : SellerConfig) (describe : String → String)
    (url u1 u2 : String) (t1 t2 : Nat)
    (vo : FetchResult VerificationJson) (so : FetchResult SettlementJson) :
    weatherHandler cfg describe url u1 t1 none vo so
      = ⟨402, .challenge (challengeBody cfg describe url u1 t1), none⟩ ∧
    (challengeBody cfg describe url u1 t1).accepts
      = (challengeBody cfg describe url u2 t2).accepts ∧
    challengeBody cfg describe url u1 t1
      = { challengeBody cfg describe url u2 t2 with invoice := ⟨u1, t1⟩ } :=
  ⟨rfl, rfl, rfl⟩

/-- Claim C5: for requests with payment evidence attached, failed
verification answers 402 with PAYMENT_INVALID, successful verification
with failed settlement answers 402 with PAYMENT_NOT_SETTLED, successful
settlement answers 200 with the resource body and the encoded
settlement-receipt header; and the /weather handler only ever answers
200 or 402 - no verifier or settler failure produces a 5xx. -/
theorem claim_C5_seller_status_mapping (cfg : SellerConfig) (describe : String → String)
    (url uuid : String) (now : Nat) (hdr : RawPayload)
    (vo : FetchResult VerificationJson) (so : FetchResult SettlementJson)
    (v : VerificationJson) (s : SettlementJson) :
    (vo = .ok v → v.valid = false →
      weatherHandler cfg describe url uuid now (some (.payment hdr)) vo so
        = ⟨402, .paymentInvalid v.error, none⟩) ∧
    (vo = .ok v → v.valid = true → so = .ok s → s.ok = false →
      weatherHandler cfg describe url uuid now (some (.payment hdr)) vo so
        = ⟨402, .paymentNotSettled s.error, none⟩) ∧
    (vo = .ok v → v.valid = true → so = .ok s → s.ok = true →
      weatherHandler cfg describe url uuid now (some (.payment hdr)) vo so
        = ⟨200, .weatherReport cfg.tokenAccountId cfg.priceAtomic s.txHash, some s⟩) ∧
    (∀ (header : Option HeaderBlob) (vo2 : FetchResult VerificationJson)
        (so2 : FetchResult SettlementJson),
      (weatherHandler cfg describe url uuid now header vo2 so2).status = 200 ∨
      (weatherHandler cfg describe url uuid now header vo2 so2).status = 402) := by
  refine ⟨?_, ?_, ?_, ?_⟩
  · intro hvo hv
    subst hvo
    simp [weatherHandler, hv]
  · intro hvo hv hso hs
    subst hvo
    subst hso
    simp [weatherHandler, hv, hs]
  · intro hvo hv hso hs
    subst hvo
    subst hso
    simp [weatherHandler, hv, hs, buildAccepts]
  · intro header vo2 so2
    cases header with
    | none => right; rfl
    | some hb =>
      cases hb with
      | malformed => right; rfl
      | payment q =>
        cases vo2 with
        | fail => right; rfl
        | ok v2 =>
          cases hv2 : v2.valid with
          | false => right; simp [weatherHandler, hv2]
          | true =>
            cases so2 with
            | fail => right; simp [weatherHandler, hv2]
            | ok s2 =>
              cases hs2 : s2.ok with
              | false => right; simp [weatherHandler, hv2, hs2]
              | true => left; simp [weatherHandler, hv2, hs2]

/-- Witness for claim C5 at concrete inputs covering all three
branches: invalid verification, unsettled payment, and full success with
the receipt header. -/
theorem claim_C5_seller_status_mapping_witness :
    weatherHandler ⟨"testnet", "tok.testnet", "seller.testnet", "1000"⟩ id
      "http://localhost:4021/weather" "uuid-1" 1700000000000
      (some (.payment ⟨none, none, none, none, none, none, none⟩))
      (.ok ⟨false, some "Amount mismatch"⟩) (.ok ⟨true, some "tx", none⟩)
      = ⟨402, .paymentInvalid (some "Amount mismatch"), none⟩ ∧
    weatherHandler ⟨"testnet", "tok.testnet", "seller.testnet", "1000"⟩ id
      "http://localhost:4021/weather" "uuid-1" 1700000000000
      (some (.payment ⟨none, none, none, none, none, none, none⟩))
      (.ok ⟨true, none⟩) (.ok ⟨false, none, some "expired"⟩)
      = ⟨402, .paymentNotSettled (some "expired"), none⟩ ∧
    weatherHandler ⟨"testnet", "tok.testnet", "seller.testnet", "1000"⟩ id
      "http://localhost:4021/weather" "uuid-1" 1700000000000
      (some (.payment ⟨none, none, none, none, none, none, none⟩))
      (.ok ⟨true, none⟩) (.ok ⟨true, some "txhash", none⟩)
      = ⟨200, .weatherReport "tok.testnet" "1000" (some "txhash"),
          some ⟨true, some "txhash", none⟩⟩ := by
  refine ⟨?_, ?_, ?_⟩
  · exact (claim_C5_seller_status_mapping _ _ _ _ _ _ _ _
      ⟨false, some "Amount mismatch"⟩ ⟨true, some "tx", none⟩).1 rfl rfl
  · exact (claim_C5_seller_status_mapping _ _ _ _ _ _ _ _
      ⟨true, none⟩ ⟨false, none, some "expired"⟩).2.1 rfl rfl rfl rfl
  · exact (claim_C5_seller_status_mapping _ _ _ _ _ _ _ _
      ⟨true, none⟩ ⟨true, some "txhash", none⟩).2.2.1 rfl rfl rfl rfl

/-- Counterexample to claim C6 as stated: a negative-integer amount
string IS accepted as a valid exact match. With required amount "-5" and
a transfer whose args amount is "-5" to the right recipient,
verifyPayment succeeds: the BigInt conversion accepts a leading sign and
the algorithm never checks non-negativity. -/
theorem claim_C6_counterexample :
    verifyPayment (payloadWith [ftTransferTo "seller.testnet" (some "-5")])
      (detailsAmount "-5")
      = .ok (delegateWith [ftTransferTo "seller.testnet" (some "-5")]) ∧
    (detailsAmount "-5").amountExactAtomic = "-5" ∧
    parseBigInt "-5" = some (-5) ∧ (-5 : Int) < 0 :=
  ⟨by decide, rfl, by decide, by decide⟩

/-- Claim C6 amended: amountExactAtomic and the observed amount are
parsed as arbitrary-precision integers (never floating point) and
compared exactly - success implies both convert to the same integer.
The parser accepts an optional sign, however, so a negative amount
string is accepted whenever the observed amount matches it exactly. -/
theorem claim_C6_integer_amounts (p : PaymentPayload) (d : PaymentDetails)
    (del : SignedDelegateAction) (h : verifyPayment p d = .ok del) :
    ∃ A : Int, parseBigInt d.amountExactAtomic = some A ∧
      scanActions d.payTo del.signedDelegate.delegateAction.actions none
        = .ok (some A) :=
  (verifyPayment_ok_inv p d del h).2.2.2.2.2

/-- Witness for claim C6 amended at a concrete successful input. -/
theorem claim_C6_integer_amounts_witness :
    ∃ A : Int, parseBigInt (detailsAmount "1000").amountExactAtomic = some A ∧
      scanActions (detailsAmount "1000").payTo
        (delegateWith [ftTransferTo "seller.testnet" (some "1000")]
          ).signedDelegate.delegateAction.actions none
        = .ok (some A) :=
  claim_C6_integer_amounts
    (payloadWith [ftTransferTo "seller.testnet" (some "1000")])
    (detailsAmount "1000")
    (delegateWith [ftTransferTo "seller.testnet" (some "1000")])
    (by decide)

/-- Counterexample to claim C9 as stated: with amountExactAtomic "00"
(not the literal "0") and a matching transfer with no amount field,
verifyPayment still succeeds, because the comparison is between
converted integers, not strings. -/
theorem claim_C9_counterexample :
    verifyPayment (payloadWith [ftTransferTo "seller.testnet" none])
      (detailsAmount "00")
      = .ok (delegateWith [ftTransferTo "seller.testnet" none]) ∧
    (detailsAmount "00").amountExactAtomic ≠ "0" :=
  ⟨by decide, by decide⟩

/-- Claim C9 amended: a matching transfer sub-action whose args lack an
amount field (or carry an empty string) contributes observed amount 0 -
it is not rejected as malformed; when the last match observes 0, verify
succeeds iff amountExactAtomic converts to the integer 0, and otherwise
fails with Amount mismatch - not with a decode or no-transfer error. -/
theorem claim_C9_missing_amount (p : PaymentPayload) (d : PaymentDetails)
    (del : SignedDelegateAction) (A : Int) (m : String) (a : FtArgs)
    (hmethod : isTransferMethod m = true)
    (hrecip : jsOrStr a.receiver_id a.receiverId = some d.payTo)
    (hamt : a.amount = none ∨ a.amount = some "")
    (h1 : p.asset = d.asset) (h2 : p.payTo = d.payTo) (h3 : p.network = d.network)
    (h4 : p.delegateB64 = .decoded del)
    (h5 : del.signedDelegate.delegateAction.receiverId = d.asset)
    (h6 : parseBigInt d.amountExactAtomic = some A)
    (h7 : scanActions d.payTo del.signedDelegate.delegateAction.actions none
        = .ok (some 0)) :
    matchAmount d.payTo (.functionCall ⟨m, .json a⟩) = some 0 ∧
    (verifyPayment p d = .ok del ↔ A = 0) ∧
    (A ≠ 0 → verifyPayment p d = .error .amountMismatch) := by
  have hdef : jsDefault a.amount "0" = "0" := by
    rcases hamt with h | h <;> simp [jsDefault, h]
  have hv := verifyPayment_amount p d del A 0 h1 h2 h3 h4 h5 h6 h7
  refine ⟨?_, ⟨fun hok => ?_, fun he => by rw [hv, if_pos he.symm]⟩, fun hne => ?_⟩
  · simp only [matchAmount, hmethod, if_pos, hrecip, hdef]
    decide
  · by_contra hne
    rw [hv, if_neg (fun hz => hne hz.symm)] at hok
    cases hok
  · rw [hv, if_neg (fun hz => hne hz.symm)]

/-- Witness for claim C9 amended: a transfer with no amount field
observes 0, verifies against required "0", and fails with Amount
mismatch against required "7". -/
theorem claim_C9_missing_amount_witness :
    matchAmount "seller.testnet"
      (.functionCall ⟨"ft_transfer", .json ⟨some "seller.testnet", none, none⟩⟩)
      = some 0 ∧
    verifyPayment (payloadWith [ftTransferTo "seller.testnet" none])
      (detailsAmount "0")
      = .ok (delegateWith [ftTransferTo "seller.testnet" none]) ∧
    verifyPayment (payloadWith [ftTransferTo "seller.testnet" none])
      (detailsAmount "7")
      = .error .amountMismatch := by
  refine ⟨?_, ?_, ?_⟩
  · exact (claim_C9_missing_amount
      (payloadWith [ftTransferTo "seller.testnet" none]) (detailsAmount "0")
      (delegateWith [ftTransferTo "seller.testnet" none]) 0 "ft_transfer"
      ⟨some "seller.testnet", none, none⟩ (by decide) (by decide) (Or.inl rfl)
      rfl rfl rfl rfl rfl (by decide) (by decide)).1
  · exact (claim_C9_missing_amount
      (payloadWith [ftTransferTo "seller.testnet" none]) (detailsAmount "0")
      (delegateWith [ftTransferTo "seller.testnet" none]) 0 "ft_transfer"
      ⟨some "seller.testnet", none, none⟩ (by decide) (by decide) (Or.inl rfl)
      rfl rfl rfl rfl rfl (by decide) (by decide)).2.1.mpr rfl
  · exact (claim_C9_missing_amount
      (payloadWith [ftTransferTo "seller.testnet" none]) (detailsAmount "7")
      (delegateWith [ftTransferTo "seller.testnet" none]) 7 "ft_transfer"
      ⟨some "seller.testnet", none, none⟩ (by decide) (by decide) (Or.inl rfl)
      rfl rfl rfl rfl rfl (by decide) (by decide)).2.2 (by decide)
